import Mathlib

/-!
# MNSF core: shallow embedding and verification

Shallow embedding of the MNSF repository's core logic:

* `src/modules/gnss/gnss_sync.py` — GNSS synchronization manager
  (sync-status classification, NTP response generation tested here);
* `src/core/compliance_monitor.py` — compliance monitor
  (rule checks, 3GPP requirement checks, operation auditing,
  enforcement gate, report generation).

Python floats are modelled as rationals (`ℚ`): every numeric constant in the
checked code paths (frequency bands, power ceilings, quality thresholds) is an
exact decimal, so no rounding behaviour is lost. Byte strings are modelled
as `List Nat` with entries `< 256`. Timestamps that the Python code obtains
from the wall clock (`time.time()`, `datetime.now()`) are passed in as
explicit arguments, making every function a pure function of its inputs.
-/

namespace MNSF

/-! ## GNSS sync module (src/modules/gnss/gnss_sync.py) -/

/-- `SyncStatus` enum, gnss_sync.py lines 31-38. -/
inductive SyncStatus where
  | UNLOCKED
  | ACQUIRING
  | TRACKING
  | LOCKED
  | HOLDOVER
  | FAULT
deriving DecidableEq, Repr

/-- `TimeData` dataclass, gnss_sync.py lines 49-56. `utc_time` (a `datetime`
in the source) is modelled as a rational Unix timestamp; it does not affect
any of the checked logic. -/
structure TimeData where
  gps_time : ℚ
  utc_time : ℚ
  leap_seconds : Int
  time_quality : ℚ
  uncertainty_ns : ℚ
deriving DecidableEq, Repr

/-- `PositionData` dataclass, gnss_sync.py lines 58-69. -/
structure PositionData where
  latitude : ℚ
  longitude : ℚ
  altitude : ℚ
  velocity_north : ℚ
  velocity_east : ℚ
  velocity_up : ℚ
  pdop : ℚ
  hdop : ℚ
  vdop : ℚ
deriving DecidableEq, Repr

/-- The mutable state of `GNSSSyncManager` relevant to the sync logic:
`self.status`, `self.time_data`, `self.position_data` (gnss_sync.py
lines 76-79). -/
structure GNSSState where
  status : SyncStatus
  time_data : Option TimeData
  position_data : Option PositionData
deriving DecidableEq, Repr

/-- `GNSSSyncManager.update_gnss_data`, gnss_sync.py lines 261-272: stores the
new samples and recomputes the sync status from the sample's quality and
uncertainty. -/
def update_gnss_data (s : GNSSState) (td : TimeData) (pd : PositionData) :
    GNSSState :=
  { s with
    time_data := some td
    position_data := some pd
    status :=
      if td.time_quality > 0.98 ∧ td.uncertainty_ns < 50 then
        SyncStatus.LOCKED
      else if td.time_quality > 0.9 then
        SyncStatus.TRACKING
      else
        SyncStatus.ACQUIRING }

/-- The classification rule of the spec (§4.1), as a pure function of
`(quality, uncertaintyNs)`; the refinement theorems compare
`update_gnss_data` against it. -/
def classify (quality uncertainty_ns : ℚ) : SyncStatus :=
  if quality > 0.98 ∧ uncertainty_ns < 50 then SyncStatus.LOCKED
  else if quality > 0.9 then SyncStatus.TRACKING
  else SyncStatus.ACQUIRING

example : classify 0.99 25 = SyncStatus.LOCKED := by norm_num [classify]
example : classify 0.92 500 = SyncStatus.TRACKING := by norm_num [classify]
example : classify 0.85 1000 = SyncStatus.ACQUIRING := by norm_num [classify]
example : classify 0.70 2000 = SyncStatus.ACQUIRING := by norm_num [classify]

/-! ## NTP response generation (gnss_sync.py lines 148-183) -/

/-- Python `int()` on a float/rational: truncation toward zero. -/
def ratTrunc (q : ℚ) : Int := q.num.tdiv q.den

/-- One unsigned 32-bit big-endian field of `struct.pack('!II', ...)`
(gnss_sync.py line 183). Python raises for values outside `[0, 2^32)`;
every timestamp actually packed is in range, where the modulus below is
the identity. -/
def u32be (n : Int) : List Nat :=
  let m := (n % (2 ^ 32 : Int)).toNat
  [m / 2 ^ 24 % 256, m / 2 ^ 16 % 256, m / 2 ^ 8 % 256, m % 256]

/-- `GNSSSyncManager.time_to_ntp`, gnss_sync.py lines 179-183:
`seconds = int(timestamp)`, `fraction = int((timestamp - seconds) * 2**32)`,
packed as two big-endian 32-bit words. -/
def time_to_ntp (timestamp : ℚ) : List Nat :=
  let seconds : Int := ratTrunc timestamp
  let fraction : Int := ratTrunc ((timestamp - (seconds : ℚ)) * 2 ^ 32)
  u32be seconds ++ u32be fraction

/-- `bytearray` slice assignment `l[i:i+len(s)] = s`; coincides with the
Python semantics whenever the written slice lies inside the buffer, which
holds at every call site below. -/
def set_slice (l : List Nat) (i : Nat) (s : List Nat) : List Nat :=
  l.take i ++ s ++ l.drop (i + s.length)

/-- `GNSSSyncManager.generate_ntp_response`, gnss_sync.py lines 148-177.
The wall-clock reading `time.time()` is the explicit argument `now`; the
version and mode fields of `request[0]` are parsed in the source
(lines 151-152) but never used afterwards. -/
def generate_ntp_response (request : List Nat) (now : ℚ)
    (time_data : Option TimeData) : List Nat :=
  let response0 := set_slice (List.replicate 48 0) 0 [0x24]
  let current_time := now + 2208988800
  let response1 := set_slice response0 40 (time_to_ntp current_time)
  let response2 :=
    match time_data with
    | some td => set_slice response1 16 (time_to_ntp (td.gps_time + 315964800))
    | none => response1
  let response3 := set_slice response2 24 ((request.drop 40).take 8)
  set_slice response3 32 (time_to_ntp (current_time - 0.001))

lemma time_to_ntp_length (t : ℚ) : (time_to_ntp t).length = 8 := rfl

lemma set_slice_length {l s : List Nat} {i : Nat}
    (h : i + s.length ≤ l.length) : (set_slice l i s).length = l.length := by
  simp only [set_slice, List.length_append, List.length_take, List.length_drop]
  omega

/-- Reading back the slice one just wrote. -/
lemma set_slice_read_self {l s : List Nat} {i : Nat}
    (h : i + s.length ≤ l.length) :
    ((set_slice l i s).drop i).take s.length = s := by
  have hA : (l.take i).length = i := by
    simp only [List.length_take]; omega
  simp only [set_slice, List.append_assoc]
  rw [List.drop_append_of_le_length (by rw [hA]),
    List.drop_of_length_le (by rw [hA]), List.nil_append, List.take_left]

/-- A write strictly to the right of the region `[i, i+m)` leaves that
region unchanged. -/
lemma set_slice_read_left {l t : List Nat} {i m j : Nat}
    (hm : i + m ≤ j) (hr : j ≤ l.length) :
    ((set_slice l j t).drop i).take m = (l.drop i).take m := by
  have hA : (l.take j).length = j := by
    simp only [List.length_take]; omega
  simp only [set_slice, List.append_assoc]
  rw [List.drop_append_eq_append_drop,
    List.take_append_of_le_length (by rw [List.length_drop, hA]; omega),
    List.drop_take, List.take_take]
  congr 1
  omega

lemma getElem?_zero_of_take_one {l : List Nat} {a : Nat}
    (h : l.take 1 = [a]) : l[0]? = some a := by
  cases l with
  | nil => simp at h
  | cons x xs =>
    simp only [List.take_succ_cons, List.take_zero, List.cons.injEq] at h
    simp [h.1]

/-- `take` below a later write commutes with it (corollary of
`set_slice_read_left` at offset 0). -/
lemma set_slice_take_left {l t : List Nat} {m j : Nat}
    (hm : m ≤ j) (hr : j ≤ l.length) :
    (set_slice l j t).take m = l.take m := by
  have h := set_slice_read_left (l := l) (t := t) (i := 0) (m := m) (j := j)
    (by omega) hr
  simpa using h

/-- The response buffer after `response[0] = 0x24`
(gnss_sync.py lines 155-156). -/
def ntp_buf0 : List Nat := set_slice (List.replicate 48 0) 0 [0x24]

/-- …after writing the transmit timestamp at bytes 40-48 (lines 159-163). -/
def ntp_buf1 (now : ℚ) : List Nat :=
  set_slice ntp_buf0 40 (time_to_ntp (now + 2208988800))

/-- …after conditionally writing the reference timestamp at bytes 16-24
(lines 165-168). -/
def ntp_buf2 (now : ℚ) (td : Option TimeData) : List Nat :=
  match td with
  | some t => set_slice (ntp_buf1 now) 16 (time_to_ntp (t.gps_time + 315964800))
  | none => ntp_buf1 now

section NTPproofs

variable (request : List Nat) (now : ℚ) (td : Option TimeData)

/-- Unfolded view of the response construction, naming each intermediate
buffer in source order. -/
lemma generate_ntp_response_eq :
    generate_ntp_response request now td =
      set_slice (set_slice (ntp_buf2 now td) 24 ((request.drop 40).take 8))
        32 (time_to_ntp (now + 2208988800 - 0.001)) := by
  cases td <;> rfl

lemma ntp_buf0_length : ntp_buf0.length = 48 := rfl

lemma ntp_buf1_length : (ntp_buf1 now).length = 48 := by
  rw [ntp_buf1, set_slice_length (by rw [time_to_ntp_length, ntp_buf0_length])]
  exact ntp_buf0_length

lemma ntp_buf2_length : (ntp_buf2 now td).length = 48 := by
  cases td with
  | none => exact ntp_buf1_length now
  | some t =>
    rw [ntp_buf2, set_slice_length
      (by rw [time_to_ntp_length, ntp_buf1_length]; omega)]
    exact ntp_buf1_length now

lemma ntp_buf0_take_one : ntp_buf0.take 1 = [0x24] := rfl

lemma ntp_buf2_take_one : (ntp_buf2 now td).take 1 = [0x24] := by
  have h1 : (ntp_buf1 now).take 1 = [0x24] := by
    rw [ntp_buf1,
      set_slice_take_left (by omega) (by rw [ntp_buf0_length]; omega)]
    exact ntp_buf0_take_one
  cases td with
  | none => exact h1
  | some t =>
    rw [ntp_buf2,
      set_slice_take_left (by omega) (by rw [ntp_buf1_length]; omega)]
    exact h1

end NTPproofs

/-- C2: for every `TimeSample` passed to update, the resulting sync state is
a pure, deterministic function of `(quality, uncertaintyNs)`: LOCKED when
quality > 0.98 and uncertaintyNs < 50, else TRACKING when quality > 0.9,
else ACQUIRING; in particular (0.99, 25) gives LOCKED, (0.92, 500) gives
TRACKING, (0.85, 1000) gives ACQUIRING, (0.70, 2000) gives ACQUIRING. -/
theorem update_status_classifies :
    (∀ (s : GNSSState) (td : TimeData) (pd : PositionData),
      (update_gnss_data s td pd).status =
        classify td.time_quality td.uncertainty_ns) ∧
    classify 0.99 25 = SyncStatus.LOCKED ∧
    classify 0.92 500 = SyncStatus.TRACKING ∧
    classify 0.85 1000 = SyncStatus.ACQUIRING ∧
    classify 0.70 2000 = SyncStatus.ACQUIRING := by
  refine ⟨fun s td pd => rfl, ?_, ?_, ?_, ?_⟩ <;> norm_num [classify]

/-- C3: for every NTP request of length at least 48 bytes, the response is
exactly 48 bytes, byte 0 equals 0x24, and response bytes 24-32 equal request
bytes 40-48 (the origin echo), whatever the current time sample is. -/
theorem ntp_response_framing (request : List Nat) (now : ℚ)
    (td : Option TimeData) (hlen : 48 ≤ request.length) :
    (generate_ntp_response request now td).length = 48 ∧
    (generate_ntp_response request now td)[0]? = some 0x24 ∧
    ((generate_ntp_response request now td).drop 24).take 8
      = (request.drop 40).take 8 := by
  have hX : ((request.drop 40).take 8).length = 8 := by
    simp only [List.length_take, List.length_drop]; omega
  have h3 : (set_slice (ntp_buf2 now td) 24
      ((request.drop 40).take 8)).length = 48 := by
    rw [set_slice_length (by rw [hX, ntp_buf2_length]; omega)]
    exact ntp_buf2_length now td
  refine ⟨?_, ?_, ?_⟩
  · rw [generate_ntp_response_eq,
      set_slice_length (by rw [time_to_ntp_length, h3]; omega)]
    exact h3
  · apply getElem?_zero_of_take_one
    rw [generate_ntp_response_eq,
      set_slice_take_left (by omega) (by rw [h3]; omega),
      set_slice_take_left (by omega) (by rw [ntp_buf2_length]; omega)]
    exact ntp_buf2_take_one now td
  · rw [generate_ntp_response_eq,
      set_slice_read_left (m := 8) (by omega) (by rw [h3]; omega)]
    generalize hXg : (request.drop 40).take 8 = X at hX ⊢
    rw [← hX, set_slice_read_self (by rw [hX, ntp_buf2_length]; omega)]

/-- Witness for C3 at the all-zero 48-byte request with `now = 0` and no
time sample. -/
theorem ntp_response_framing_witness :
    (generate_ntp_response (List.replicate 48 0) 0 none).length = 48 ∧
    (generate_ntp_response (List.replicate 48 0) 0 none)[0]? = some 0x24 ∧
    ((generate_ntp_response (List.replicate 48 0) 0 none).drop 24).take 8
      = ((List.replicate 48 0 : List Nat).drop 40).take 8 :=
  ntp_response_framing (List.replicate 48 0) 0 none (by decide)

/-- C10: the NTP response depends on the request content only through
bytes 40-48: two well-formed requests agreeing there produce byte-for-byte
identical responses under the same time sample and the same current time
(the version and mode fields of request byte 0 are parsed but never used). -/
theorem ntp_response_origin_only (r1 r2 : List Nat) (now : ℚ)
    (td : Option TimeData) (h1 : 48 ≤ r1.length) (h2 : 48 ≤ r2.length)
    (h : (r1.drop 40).take 8 = (r2.drop 40).take 8) :
    generate_ntp_response r1 now td = generate_ntp_response r2 now td := by
  rw [generate_ntp_response_eq, generate_ntp_response_eq, h]

/-- Witness for C10: two requests differing in byte 0 (and hence in version
and mode bits) but agreeing on bytes 40-48 get identical responses. -/
theorem ntp_response_origin_only_witness :
    generate_ntp_response (List.replicate 48 0) 0 none
      = generate_ntp_response (227 :: List.replicate 47 0) 0 none :=
  ntp_response_origin_only (List.replicate 48 0) (227 :: List.replicate 47 0)
    0 none (by decide) (by decide) (by decide)

/-! ## Compliance monitor (src/core/compliance_monitor.py) -/

/-- `ComplianceLevel` enum, compliance_monitor.py lines 30-33. -/
inductive ComplianceLevel where
  | lab
  | test
  | production
deriving DecidableEq, Repr

/-- `RegulatoryRule` dataclass, compliance_monitor.py lines 35-43. -/
structure RegulatoryRule where
  id : String
  standard : String
  description : String
  requirement : String
  max_violations : Nat
  penalty : String
deriving DecidableEq, Repr

/-- One entry of a check result's `violations` list
(compliance_monitor.py lines 129-134 and 140-145). -/
structure Violation where
  rule_id : String
  standard : String
  description : String
  penalty : String
deriving DecidableEq, Repr

/-- One parameter constraint of the 3GPP requirement table:
`{min?, max?, allowed?}` (consumed at compliance_monitor.py
lines 185-197). Parameter values are modelled as rationals. -/
structure ParamSpec where
  lo : Option ℚ
  hi : Option ℚ
  allowed : Option (List ℚ)
deriving DecidableEq, Repr

/-- Operation parameters: the Python parameter dict as an association list
(keys unique in any dict that actually arises; lookups take the first
binding, as a dict lookup would). -/
abbrev Params := List (String × ℚ)

/-- The `check_result` record built by `ComplianceMonitor.check_operation`
(compliance_monitor.py lines 116-123). `operation_id` models
`hashlib.md5(f"{operation}{json.dumps(parameters)}").hexdigest()`: a content
fingerprint determined exactly by the operation name and parameters; the
digest string itself is opaque to all program logic, so the fingerprint is
modelled as the hashed content. -/
structure CheckResult where
  operation : String
  parameters : Params
  timestamp : Nat
  compliant : Bool
  violations : List Violation
  operation_id : String × Params
deriving DecidableEq, Repr

/-- The mutable state of `ComplianceMonitor` (compliance_monitor.py
lines 48-56): loaded rules, violation log, compliance level, operations
audit log, and the loaded 3GPP requirement table
(`self.standards['requirements']`, an operation-name-indexed table). -/
structure MonitorState where
  rules : List RegulatoryRule
  violations : List CheckResult
  compliance_level : ComplianceLevel
  operations_log : List CheckResult
  requirements : List (String × List (String × ParamSpec))
  standards_list : List String
deriving DecidableEq, Repr

/-- `ComplianceMonitor._get_allowed_bands`, compliance_monitor.py
lines 201-211. -/
def get_allowed_bands (level : ComplianceLevel) : List (ℚ × ℚ) :=
  match level with
  | ComplianceLevel.lab =>
      [(1575.42e6 - 10e6, 1575.42e6 + 10e6),  -- GPS L1
       (2400e6, 2483.5e6),                    -- ISM band
       (0, 1e9)]                              -- Receive-only up to 1GHz
  | _ => []

/-- The frequency-band clause of `ComplianceMonitor._check_rule`
(compliance_monitor.py lines 162-170): when a `frequency` parameter is
present it must lie in some allowed band. -/
def freq_check (level : ComplianceLevel) (parameters : Params) : Bool :=
  match List.lookup "frequency" parameters with
  | none => true
  | some freq =>
      (get_allowed_bands level).any fun b =>
        decide (b.1 ≤ freq) && decide (freq ≤ b.2)

/-- The power clause of `ComplianceMonitor._check_rule`
(compliance_monitor.py lines 172-177): when a `tx_power` parameter is
present it must not exceed −30 dBm at LAB level, 10 dBm otherwise. -/
def power_check (level : ComplianceLevel) (parameters : Params) : Bool :=
  match List.lookup "tx_power" parameters with
  | none => true
  | some p =>
      let max_power : ℚ := if level = ComplianceLevel.lab then -30 else 10
      !decide (p > max_power)

/-- `ComplianceMonitor._check_rule`, compliance_monitor.py lines 156-179:
returns false on the first failing clause (frequency first, then power);
the rule itself carries no data used by the checks. -/
def check_rule (level : ComplianceLevel) (_rule : RegulatoryRule)
    (_operation : String) (parameters : Params) : Bool :=
  freq_check level parameters && power_check level parameters

/-- `ComplianceMonitor._check_3gpp_requirement`, compliance_monitor.py
lines 181-199: for each table parameter present in the request, the value
must respect the optional lower bound, upper bound and allow-list; the
first failure returns false. -/
def check_3gpp_requirement
    (requirements : List (String × List (String × ParamSpec)))
    (operation : String) (parameters : Params) : Bool :=
  match List.lookup operation requirements with
  | none => true
  | some specs =>
      specs.all fun ps =>
        match List.lookup ps.1 parameters with
        | none => true
        | some v =>
            (match ps.2.lo with
             | none => true
             | some m => !decide (v < m)) &&
            (match ps.2.hi with
             | none => true
             | some m => !decide (v > m)) &&
            (match ps.2.allowed with
             | none => true
             | some l => decide (v ∈ l))

/-- The violation entry appended for a failing regulatory rule
(compliance_monitor.py lines 129-134). -/
def rule_violation_entry (r : RegulatoryRule) : Violation :=
  { rule_id := r.id, standard := r.standard, description := r.description,
    penalty := r.penalty }

/-- The violation entry appended for a failing 3GPP requirement
(compliance_monitor.py lines 140-145). -/
def gpp_violation_entry (operation : String) : Violation :=
  { rule_id := "3GPP_VIOLATION", standard := "3GPP",
    description := "Violates 3GPP requirement for " ++ operation,
    penalty := "operation_blocked" }

/-- The pure verdict portion of `ComplianceMonitor.check_operation`
(compliance_monitor.py lines 112-145): rule violations in rule order,
then the single 3GPP violation entry when the operation is in the table
and its requirement check fails; compliant iff no violation was recorded.
The wall-clock reading is the explicit `ts` argument. -/
def mkCheckResult (rules : List RegulatoryRule) (level : ComplianceLevel)
    (requirements : List (String × List (String × ParamSpec)))
    (operation : String) (parameters : Params) (ts : Nat) : CheckResult :=
  let rule_violations :=
    (rules.filter fun r => !check_rule level r operation parameters).map
      rule_violation_entry
  let gpp_violations :=
    if (List.lookup operation requirements).isSome
        && !check_3gpp_requirement requirements operation parameters then
      [gpp_violation_entry operation]
    else []
  let vs := rule_violations ++ gpp_violations
  { operation := operation, parameters := parameters, timestamp := ts,
    compliant := vs.isEmpty, violations := vs,
    operation_id := (operation, parameters) }

/-- `ComplianceMonitor.check_operation`, compliance_monitor.py
lines 112-154: builds the check result, appends it to the operations log,
additionally appends it to the violation log when non-compliant, and
returns the compliance flag. -/
def check_operation (s : MonitorState) (operation : String)
    (parameters : Params) (ts : Nat) : Bool × MonitorState :=
  let r := mkCheckResult s.rules s.compliance_level s.requirements
    operation parameters ts
  let s1 := { s with operations_log := s.operations_log ++ [r] }
  let s2 :=
    if r.compliant then s1
    else { s1 with violations := s1.violations ++ [r] }
  (r.compliant, s2)

/-- Python list slice `l[-n:]`: the last `min n (length l)` elements. -/
def lastN (n : Nat) (l : List CheckResult) : List CheckResult :=
  l.drop (l.length - n)

/-- The `action` field of an enforcement decision
(compliance_monitor.py lines 301-329). -/
inductive EnforcementAction where
  | proceed
  | warn
  | block
deriving DecidableEq, Repr

/-- The decision dict returned by `ComplianceMonitor.enforce_compliance`;
`violations` is absent (`none`) in the compliant branch. -/
structure EnforcementDecision where
  allowed : Bool
  action : EnforcementAction
  message : String
  violations : Option (List CheckResult)
deriving DecidableEq, Repr

/-- `ComplianceMonitor.enforce_compliance`, compliance_monitor.py
lines 301-329: evaluate the operation (which logs it, and logs the
violation when non-compliant), then decide from the last 10 entries of the
violation log — note the current violation has already been appended when
the window is read. -/
def enforce_compliance (s : MonitorState) (operation : String)
    (parameters : Params) (ts : Nat) : EnforcementDecision × MonitorState :=
  let res := check_operation s operation parameters ts
  if res.1 then
    ({ allowed := true, action := EnforcementAction.proceed,
       message := "Operation compliant with regulations",
       violations := none }, res.2)
  else
    let recent_violations :=
      (lastN 10 res.2.violations).filter fun v => v.operation == operation
    if recent_violations.length ≥ 3 then
      ({ allowed := false, action := EnforcementAction.block,
         message := "Operation blocked due to multiple violations",
         violations := some recent_violations }, res.2)
    else
      ({ allowed := true, action := EnforcementAction.warn,
         message := "Operation allowed with compliance warning",
         violations := some recent_violations }, res.2)

/-- Python dict counting `d[k] = d.get(k, 0) + 1` on an insertion-ordered
association list (compliance_monitor.py line 286). -/
def bump_count (acc : List (String × Nat)) (k : String) :
    List (String × Nat) :=
  if acc.any fun kc => kc.1 == k then
    acc.map fun kc => if kc.1 == k then (kc.1, kc.2 + 1) else kc
  else
    acc ++ [(k, 1)]

/-- `ComplianceMonitor._generate_recommendations`, compliance_monitor.py
lines 277-299. -/
def generate_recommendations (violations : List CheckResult) : List String :=
  let violation_counts :=
    violations.foldl (fun acc v =>
      v.violations.foldl (fun acc2 viol => bump_count acc2 viol.rule_id) acc) []
  let recs :=
    (violation_counts.filter fun kc => kc.2 > 5).map fun kc =>
      "High frequency of " ++ kc.1 ++ " violations (" ++ toString kc.2
        ++ "x). Consider retraining."
  let recs :=
    recs ++
      (if violations.length > 10 then
        ["High violation rate detected. Review operational procedures."]
      else [])
  if recs.isEmpty then
    ["All operations within compliance limits. Continue monitoring."]
  else recs

/-- The report dict built by `ComplianceMonitor.generate_compliance_report`
(compliance_monitor.py lines 247-266). `report_id` models
`hashlib.md5(datetime.now().isoformat())` as the hashed wall-clock content;
the wall clock is the explicit `ts` argument. -/
structure ComplianceReport where
  report_id : Nat
  generated : Nat
  compliance_level : ComplianceLevel
  total_operations : Nat
  compliant_operations : Nat
  non_compliant_operations : Nat
  total_violations : Nat
  rules_loaded : Nat
  standards_loaded : List String
  operations_analysis : List CheckResult
  violations : List CheckResult
  recommendations : List String
deriving DecidableEq, Repr

/-- `ComplianceMonitor.generate_compliance_report`, compliance_monitor.py
lines 247-266 (the file write at lines 268-272 is I/O outside the model). -/
def generate_compliance_report (s : MonitorState) (ts : Nat) :
    ComplianceReport :=
  { report_id := ts
    generated := ts
    compliance_level := s.compliance_level
    total_operations := s.operations_log.length
    compliant_operations :=
      (s.operations_log.filter fun op => op.compliant).length
    non_compliant_operations :=
      (s.operations_log.filter fun op => !op.compliant).length
    total_violations := s.violations.length
    rules_loaded := s.rules.length
    standards_loaded := s.standards_list
    operations_analysis := lastN 100 s.operations_log
    violations := lastN 50 s.violations
    recommendations := generate_recommendations s.violations }

/-! ## Concrete fixtures used by the witnesses -/

/-- A sample regulatory rule as loaded from `global_regulations.yaml`. -/
def demo_rule : RegulatoryRule :=
  { id := "RULE-TX", standard := "FCC", description := "TX power limit",
    requirement := "tx_power within limits", max_violations := 3,
    penalty := "warning" }

/-- A freshly initialized monitor at LAB level with one regulatory rule and
an empty 3GPP table. -/
def demo_state : MonitorState :=
  { rules := [demo_rule], violations := [], compliance_level :=
      ComplianceLevel.lab, operations_log := [], requirements := [],
    standards_list := ["3GPP TS 36.133"] }

/-- Parameters that violate the LAB power ceiling (tx_power 20 dBm > −30). -/
def demo_params : Params := [("tx_power", 20)]

/-- A logged violation record for operation "X". -/
def demo_viol : CheckResult :=
  { operation := "X", parameters := demo_params, timestamp := 0,
    compliant := false, violations := [rule_violation_entry demo_rule],
    operation_id := ("X", demo_params) }

/-- `demo_state` after some history: same rules, level and requirement
table, but non-empty logs. -/
def demo_state_logged : MonitorState :=
  { demo_state with
      violations := [demo_viol]
      operations_log := [demo_viol] }

/-- `demo_state` at TEST level instead of LAB. -/
def demo_state_test : MonitorState :=
  { demo_state with compliance_level := ComplianceLevel.test }

/-! ## Helper lemmas -/

lemma lastN_length_le (n : Nat) (l : List CheckResult) :
    (lastN n l).length ≤ n := by
  simp only [lastN, List.length_drop]; omega

/-- Appending one record shifts the last-10 window: it is the last 9 old
entries plus the new one. -/
lemma lastN_append_singleton (l : List CheckResult) (x : CheckResult) :
    lastN 10 (l ++ [x]) = lastN 9 l ++ [x] := by
  simp only [lastN, List.length_append, List.length_cons, List.length_nil,
    List.drop_append_eq_append_drop]
  have h1 : l.length + (0 + 1) - 10 = l.length - 9 := by omega
  have h2 : l.length - 9 - l.length = 0 := by omega
  rw [h1, h2]
  rfl

lemma length_filter_compliant_split (l : List CheckResult) :
    (l.filter fun op => op.compliant).length
      + (l.filter fun op => !op.compliant).length = l.length := by
  induction l with
  | nil => rfl
  | cons a t ih =>
    cases hc : a.compliant <;> simp [List.filter_cons, hc] <;> omega

/-! ## Claim theorems -/

/-- C8: for every monitor state, the generated report's summary counts are
exact (totalOperations is the number of audited operations, compliant and
non-compliant operations sum to the total, totalViolations is the length of
the violation log), and the operationsAnalysis and violations lists hold at
most 100 and 50 entries respectively, however large the history is. -/
theorem report_summary_exact (s : MonitorState) (ts : Nat) :
    (generate_compliance_report s ts).total_operations
        = s.operations_log.length ∧
    (generate_compliance_report s ts).compliant_operations
        + (generate_compliance_report s ts).non_compliant_operations
        = (generate_compliance_report s ts).total_operations ∧
    (generate_compliance_report s ts).total_violations
        = s.violations.length ∧
    (generate_compliance_report s ts).operations_analysis.length ≤ 100 ∧
    (generate_compliance_report s ts).violations.length ≤ 50 :=
  ⟨rfl, length_filter_compliant_split s.operations_log, rfl,
    lastN_length_le 100 s.operations_log, lastN_length_le 50 s.violations⟩

/-- C5: the compliance evaluation is deterministic: two monitors with
identical rules, compliance level and requirement table produce, for the
same request and the same clock reading, identical verdicts — every field
of the check result, including the returned compliance flag, regardless of
their accumulated logs. -/
theorem evaluate_deterministic (s1 s2 : MonitorState) (operation : String)
    (parameters : Params) (ts : Nat)
    (hr : s1.rules = s2.rules)
    (hl : s1.compliance_level = s2.compliance_level)
    (hq : s1.requirements = s2.requirements) :
    mkCheckResult s1.rules s1.compliance_level s1.requirements operation
        parameters ts
      = mkCheckResult s2.rules s2.compliance_level s2.requirements operation
        parameters ts ∧
    (check_operation s1 operation parameters ts).1
      = (check_operation s2 operation parameters ts).1 := by
  rw [check_operation, check_operation, hr, hl, hq]
  exact ⟨rfl, rfl⟩

/-- Witness for C5: two monitors sharing rules, level and requirement table
but with different accumulated logs give the same verdict. -/
theorem evaluate_deterministic_witness :
    mkCheckResult demo_state.rules demo_state.compliance_level
        demo_state.requirements "X" demo_params 7
      = mkCheckResult demo_state_logged.rules
        demo_state_logged.compliance_level demo_state_logged.requirements
        "X" demo_params 7 ∧
    (check_operation demo_state "X" demo_params 7).1
      = (check_operation demo_state_logged "X" demo_params 7).1 :=
  evaluate_deterministic demo_state demo_state_logged "X" demo_params 7
    rfl rfl rfl

/-- C6: with a non-LAB compliance level, at least one loaded rule and a
frequency parameter present, the frequency-band check fails (the allowed
band set is empty) and the verdict is non-compliant, whatever the
frequency value. -/
theorem non_lab_frequency_fails (s : MonitorState) (operation : String)
    (parameters : Params) (ts : Nat) (f : ℚ)
    (hlevel : s.compliance_level ≠ ComplianceLevel.lab)
    (hrules : s.rules ≠ [])
    (hfreq : List.lookup "frequency" parameters = some f) :
    get_allowed_bands s.compliance_level = [] ∧
    freq_check s.compliance_level parameters = false ∧
    (mkCheckResult s.rules s.compliance_level s.requirements operation
        parameters ts).compliant = false := by
  have hbands : get_allowed_bands s.compliance_level = [] := by
    cases h : s.compliance_level with
    | lab => exact absurd h hlevel
    | test => rfl
    | production => rfl
  have hfc : freq_check s.compliance_level parameters = false := by
    rw [freq_check, hfreq, hbands]
    rfl
  refine ⟨hbands, hfc, ?_⟩
  have hfilter :
      (s.rules.filter fun r =>
        !check_rule s.compliance_level r operation parameters) = s.rules :=
    List.filter_eq_self.mpr fun a _ => by
      simp [check_rule, hfc]
  simp only [mkCheckResult, hfilter]
  cases hr : s.rules with
  | nil => exact absurd hr hrules
  | cons a t => simp

/-- Witness for C6: at TEST level with one rule loaded, a 940 MHz request
is rejected by the (empty) band table. -/
theorem non_lab_frequency_fails_witness :
    get_allowed_bands demo_state_test.compliance_level = [] ∧
    freq_check demo_state_test.compliance_level
        [("frequency", 940000000)] = false ∧
    (mkCheckResult demo_state_test.rules demo_state_test.compliance_level
        demo_state_test.requirements
        "X" [("frequency", 940000000)] 0).compliant = false :=
  non_lab_frequency_fails demo_state_test
    "X" [("frequency", 940000000)] 0 940000000
    (by decide) (by decide) rfl

/-- C4 counterexample: at the claim's explicit input
`{frequency: 940000000, tx_power: 20}` under LAB level, the frequency-band
check is NOT violated — 940 MHz lies inside the LAB receive-only band
`[0, 1 GHz]` — contradicting the claim that both the band check and the
power check are violated there. -/
theorem lab_band_check_passes_940MHz :
    freq_check ComplianceLevel.lab
      [("frequency", 940000000), ("tx_power", 20)] = true := by
  have hlk : List.lookup "frequency"
      ([("frequency", 940000000), ("tx_power", 20)] : Params)
      = some 940000000 := rfl
  rw [freq_check, hlk]
  simp only [get_allowed_bands, List.any_cons, List.any_nil]
  norm_num

/-- C4 (amended): with LAB level, at least one regulatory rule loaded and
the operation absent from the 3GPP table, `{frequency: 1575420000,
tx_power: -30}` is compliant, and `{frequency: 940000000, tx_power: 20}` is
non-compliant with the power check violated while the frequency-band check
passes (940 MHz falls in the LAB receive-only band up to 1 GHz). -/
theorem lab_example_verdicts (s : MonitorState) (operation : String)
    (ts : Nat)
    (hlab : s.compliance_level = ComplianceLevel.lab)
    (hrules : s.rules ≠ [])
    (hreq : List.lookup operation s.requirements = none) :
    (mkCheckResult s.rules s.compliance_level s.requirements operation
        [("frequency", 1575420000), ("tx_power", -30)] ts).compliant
      = true ∧
    (mkCheckResult s.rules s.compliance_level s.requirements operation
        [("frequency", 940000000), ("tx_power", 20)] ts).compliant
      = false ∧
    freq_check s.compliance_level
        [("frequency", 940000000), ("tx_power", 20)] = true ∧
    power_check s.compliance_level
        [("frequency", 940000000), ("tx_power", 20)] = false := by
  rw [hlab]
  have hfc1 : freq_check ComplianceLevel.lab
      [("frequency", 1575420000), ("tx_power", -30)] = true := by
    have hlk : List.lookup "frequency"
        ([("frequency", 1575420000), ("tx_power", -30)] : Params)
        = some 1575420000 := rfl
    rw [freq_check, hlk]
    simp only [get_allowed_bands, List.any_cons, List.any_nil]
    norm_num
  have hpc1 : power_check ComplianceLevel.lab
      [("frequency", 1575420000), ("tx_power", -30)] = true := by
    have hlk : List.lookup "tx_power"
        ([("frequency", 1575420000), ("tx_power", -30)] : Params)
        = some (-30) := rfl
    rw [power_check, hlk]
    norm_num
  have hpc2 : power_check ComplianceLevel.lab
      [("frequency", 940000000), ("tx_power", 20)] = false := by
    have hlk : List.lookup "tx_power"
        ([("frequency", 940000000), ("tx_power", 20)] : Params)
        = some 20 := rfl
    rw [power_check, hlk]
    norm_num
  have hgpp : (List.lookup operation s.requirements).isSome = false := by
    rw [hreq]; rfl
  refine ⟨?_, ?_, lab_band_check_passes_940MHz, hpc2⟩
  · have hfilter : (s.rules.filter fun r =>
        !check_rule ComplianceLevel.lab r operation
          [("frequency", 1575420000), ("tx_power", -30)]) = [] :=
      List.filter_eq_nil_iff.mpr fun r _ => by
        simp [check_rule, hfc1, hpc1]
    simp [mkCheckResult, hfilter, hgpp]
  · have hfilter : (s.rules.filter fun r =>
        !check_rule ComplianceLevel.lab r operation
          [("frequency", 940000000), ("tx_power", 20)]) = s.rules :=
      List.filter_eq_self.mpr fun r _ => by
        simp [check_rule, hpc2]
    simp only [mkCheckResult, hfilter, hgpp]
    cases hr : s.rules with
    | nil => exact absurd hr hrules
    | cons a t => simp

/-- Witness for the amended C4 at the fresh LAB monitor. -/
theorem lab_example_verdicts_witness :
    (mkCheckResult demo_state.rules demo_state.compliance_level
        demo_state.requirements "X"
        [("frequency", 1575420000), ("tx_power", -30)] 0).compliant
      = true ∧
    (mkCheckResult demo_state.rules demo_state.compliance_level
        demo_state.requirements "X"
        [("frequency", 940000000), ("tx_power", 20)] 0).compliant
      = false ∧
    freq_check demo_state.compliance_level
        [("frequency", 940000000), ("tx_power", 20)] = true ∧
    power_check demo_state.compliance_level
        [("frequency", 940000000), ("tx_power", 20)] = false :=
  lab_example_verdicts demo_state "X" 0 rfl (by decide) rfl

/-- The spec's description of a failing 3GPP parameter (§4.4 item 2):
value below the lower bound, above the upper bound, or outside the
allow-list, each only when that field is given. -/
def param_violates (ps : ParamSpec) (v : ℚ) : Prop :=
  (∃ m, ps.lo = some m ∧ v < m) ∨
  (∃ m, ps.hi = some m ∧ v > m) ∨
  (∃ l, ps.allowed = some l ∧ v ∉ l)

lemma param_entry_check_eq_false (ps : String × ParamSpec)
    (parameters : Params) :
    ((match List.lookup ps.1 parameters with
      | none => true
      | some v =>
          (match ps.2.lo with
           | none => true
           | some m => !decide (v < m)) &&
          (match ps.2.hi with
           | none => true
           | some m => !decide (v > m)) &&
          (match ps.2.allowed with
           | none => true
           | some l => decide (v ∈ l))) = false)
      ↔ ∃ v, List.lookup ps.1 parameters = some v
          ∧ param_violates ps.2 v := by
  obtain ⟨name, lo, hi, allowed⟩ := ps
  cases hl : List.lookup name parameters with
  | none => simp
  | some v =>
    cases lo <;> cases hi <;> cases allowed <;>
      simp [param_violates, Bool.and_eq_false_iff, gt_iff_lt] <;>
      simp [imp_iff_not_or, not_le, or_assoc]

/-- C7: when the operation appears in the 3GPP requirement table, the 3GPP
check fails exactly when some parameter present in both the request and the
table entry violates its bounds or allow-list; and any failure makes the
verdict non-compliant with exactly one violation entry tagged
`3GPP_VIOLATION`, however many parameters fail. -/
theorem gpp_requirement_characterized (s : MonitorState)
    (operation : String) (parameters : Params) (ts : Nat)
    (specs : List (String × ParamSpec))
    (h : List.lookup operation s.requirements = some specs)
    (hids : ∀ r ∈ s.rules, r.id ≠ "3GPP_VIOLATION") :
    (check_3gpp_requirement s.requirements operation parameters = false ↔
      ∃ p ∈ specs, ∃ v, List.lookup p.1 parameters = some v ∧
        param_violates p.2 v) ∧
    (check_3gpp_requirement s.requirements operation parameters = false →
      (mkCheckResult s.rules s.compliance_level s.requirements operation
          parameters ts).compliant = false ∧
      ((mkCheckResult s.rules s.compliance_level s.requirements operation
          parameters ts).violations.filter
        fun viol => viol.rule_id == "3GPP_VIOLATION").length = 1) := by
  constructor
  · rw [check_3gpp_requirement, h]
    rw [List.all_eq_false]
    constructor
    · rintro ⟨p, hp, hfp⟩
      obtain ⟨v, hv, hviol⟩ := (param_entry_check_eq_false p parameters).mp
        (Bool.not_eq_true _ ▸ hfp)
      exact ⟨p, hp, v, hv, hviol⟩
    · rintro ⟨p, hp, v, hv, hviol⟩
      refine ⟨p, hp, ?_⟩
      rw [Bool.not_eq_true]
      exact (param_entry_check_eq_false p parameters).mpr ⟨v, hv, hviol⟩
  · intro hfail
    have hsome : (List.lookup operation s.requirements).isSome = true := by
      rw [h]; rfl
    have hleft : (((s.rules.filter fun r =>
        !check_rule s.compliance_level r operation parameters).map
          rule_violation_entry).filter
        fun viol => viol.rule_id == "3GPP_VIOLATION") = [] := by
      refine List.filter_eq_nil_iff.mpr fun a ha => ?_
      obtain ⟨r, hr, rfl⟩ := List.mem_map.mp ha
      have hrid := hids r (List.mem_of_mem_filter hr)
      simp [rule_violation_entry, hrid]
    constructor
    · simp [mkCheckResult, hsome, hfail]
    · simp only [mkCheckResult, hsome, hfail, Bool.not_false,
        Bool.and_self, if_true, List.filter_append, hleft]
      rfl

/-- A sample 3GPP table entry: `attach.bandwidth` bounded to `[1, 20]` with
an allow-list. -/
def demo_specs : List (String × ParamSpec) :=
  [("bandwidth", { lo := some 1, hi := some 20,
                   allowed := some [5, 10, 15, 20] })]

/-- `demo_state` with the `attach` operation present in the 3GPP table. -/
def demo_state_gpp : MonitorState :=
  { demo_state with requirements := [("attach", demo_specs)] }

/-- Witness for C7: an `attach` request with `bandwidth = 25` (above the
max of 20) fails the 3GPP check, yielding a non-compliant verdict with
exactly one `3GPP_VIOLATION` entry. -/
theorem gpp_requirement_characterized_witness :
    (mkCheckResult demo_state_gpp.rules demo_state_gpp.compliance_level
        demo_state_gpp.requirements "attach" [("bandwidth", 25)] 0).compliant
      = false ∧
    ((mkCheckResult demo_state_gpp.rules demo_state_gpp.compliance_level
        demo_state_gpp.requirements "attach" [("bandwidth", 25)] 0).violations.filter
      fun viol => viol.rule_id == "3GPP_VIOLATION").length = 1 :=
  (gpp_requirement_characterized demo_state_gpp "attach" [("bandwidth", 25)]
    0 demo_specs rfl (by decide)).2 (by decide)

/-- C1: for every request, `enforce_compliance` first evaluates compliance:
a compliant verdict yields `{allowed: true, action: proceed}`; a
non-compliant one counts, among the 10 most recent violation-log entries
(as they stand at decision time), those whose operation equals this
request's, and yields `{allowed: false, action: block}` when the count
reaches 3, else `{allowed: true, action: warn}`. In particular, on a fresh
monitor the first two non-compliant calls for "X" are warned, and a 4th
non-compliant call, made after 3 "X"-violations stand within the last 10
logged, is blocked. -/
theorem enforce_decision_policy (s : MonitorState) (operation : String)
    (parameters : Params) (ts : Nat) :
    (if (mkCheckResult s.rules s.compliance_level s.requirements operation
          parameters ts).compliant then
        (enforce_compliance s operation parameters ts).1
          = { allowed := true, action := EnforcementAction.proceed,
              message := "Operation compliant with regulations",
              violations := none }
      else
        if 3 ≤ ((lastN 10 (s.violations ++ [mkCheckResult s.rules
              s.compliance_level s.requirements operation parameters
              ts])).filter fun v => v.operation == operation).length then
          (enforce_compliance s operation parameters ts).1
            = { allowed := false, action := EnforcementAction.block,
                message := "Operation blocked due to multiple violations",
                violations := some ((lastN 10 (s.violations
                  ++ [mkCheckResult s.rules s.compliance_level
                      s.requirements operation parameters ts])).filter
                  fun v => v.operation == operation) }
        else
          (enforce_compliance s operation parameters ts).1
            = { allowed := true, action := EnforcementAction.warn,
                message := "Operation allowed with compliance warning",
                violations := some ((lastN 10 (s.violations
                  ++ [mkCheckResult s.rules s.compliance_level
                      s.requirements operation parameters ts])).filter
                  fun v => v.operation == operation) }) ∧
    (enforce_compliance demo_state "X" demo_params 1).1.allowed = true ∧
    (enforce_compliance demo_state "X" demo_params 1).1.action
      = EnforcementAction.warn ∧
    (enforce_compliance
        (enforce_compliance demo_state "X" demo_params 1).2
        "X" demo_params 2).1.allowed = true ∧
    (enforce_compliance
        (enforce_compliance demo_state "X" demo_params 1).2
        "X" demo_params 2).1.action = EnforcementAction.warn ∧
    (enforce_compliance
        (enforce_compliance
          (enforce_compliance
            (enforce_compliance demo_state "X" demo_params 1).2
            "X" demo_params 2).2
          "X" demo_params 3).2
        "X" demo_params 4).1.allowed = false ∧
    (enforce_compliance
        (enforce_compliance
          (enforce_compliance
            (enforce_compliance demo_state "X" demo_params 1).2
            "X" demo_params 2).2
          "X" demo_params 3).2
        "X" demo_params 4).1.action = EnforcementAction.block := by
  refine ⟨?_, by decide, by decide, by decide, by decide, by decide,
    by decide⟩
  cases hc : (mkCheckResult s.rules s.compliance_level s.requirements
      operation parameters ts).compliant with
  | true =>
    simp only [hc, if_true]
    simp [enforce_compliance, check_operation, hc]
  | false =>
    simp only [hc, Bool.false_eq_true, if_false]
    by_cases hw : 3 ≤ ((lastN 10 (s.violations ++ [mkCheckResult s.rules
        s.compliance_level s.requirements operation parameters
        ts])).filter fun v => v.operation == operation).length
    · simp only [if_pos hw]
      simp [enforce_compliance, check_operation, hc, ge_iff_le, hw]
    · simp only [if_neg hw]
      simp [enforce_compliance, check_operation, hc, ge_iff_le, hw]

/-- C9: the enforcement gate counts the current request's own violation:
the non-compliant verdict is appended to the violation log before the
last-10 window is read, so when the log already holds 2 entries for this
operation within its last 9 entries, the very next (3rd) non-compliant call
for it is already blocked — blocking does not wait for a 4th call. -/
theorem enforce_counts_own_violation (s : MonitorState) (operation : String)
    (parameters : Params) (ts : Nat)
    (hfail : (mkCheckResult s.rules s.compliance_level s.requirements
        operation parameters ts).compliant = false)
    (hwin : ((lastN 9 s.violations).filter
        fun v => v.operation == operation).length = 2) :
    (enforce_compliance s operation parameters ts).1.allowed = false ∧
    (enforce_compliance s operation parameters ts).1.action
      = EnforcementAction.block := by
  have hlast : lastN 10 (s.violations ++ [mkCheckResult s.rules
      s.compliance_level s.requirements operation parameters ts])
      = lastN 9 s.violations ++ [mkCheckResult s.rules s.compliance_level
        s.requirements operation parameters ts] :=
    lastN_append_singleton _ _
  have hcount : ((lastN 10 (s.violations ++ [mkCheckResult s.rules
      s.compliance_level s.requirements operation parameters ts])).filter
      fun v => v.operation == operation).length = 3 := by
    rw [hlast, List.filter_append, List.length_append, hwin]
    simp [mkCheckResult]
  constructor <;>
    simp [enforce_compliance, check_operation, hfail, hcount]

/-- Witness for C9: with two logged "X" violations, the 3rd non-compliant
"X" call is blocked. -/
theorem enforce_counts_own_violation_witness :
    (enforce_compliance
        ({ demo_state with violations := [demo_viol, demo_viol] }
          : MonitorState) "X" demo_params 3).1.allowed = false ∧
    (enforce_compliance
        ({ demo_state with violations := [demo_viol, demo_viol] }
          : MonitorState) "X" demo_params 3).1.action
      = EnforcementAction.block :=
  enforce_counts_own_violation
    { demo_state with violations := [demo_viol, demo_viol] }
    "X" demo_params 3 (by decide) (by decide)

end MNSF
